import Mathlib

/-!
Shallow embedding of the interrupt-driven countdown timer firmware in
`src/mdbook/src/20-timer/src/main.rs`.

The firmware keeps its state in global statics (`REMAINING_SECONDS`,
`TIMER_RUNNING`, `NUM_BLINKS`) mutated only from interrupt handlers.  The
handlers execute sequentially (equal interrupt priority), so the whole
system is a sequential state machine: a state record, one step function
per interrupt source, and an enabledness condition saying which interrupt
can fire (a timer interrupt fires only while that timer is started with
its interrupt enabled).

Machine integers: `REMAINING_SECONDS` and `NUM_BLINKS` are `u32`; the
decrement in the `TIMER0` handler is unguarded, so we model `u32`
arithmetic explicitly as `Nat` arithmetic modulo `2 ^ 32`.
-/

set_option autoImplicit false
set_option maxRecDepth 2000

namespace Countdown

/-- Number of values of a `u32`, used to model wrapping arithmetic. -/
def U32_MOD : Nat := 2 ^ 32

/-- Wrapping `u32` decrement by 1, the semantics of `REMAINING_SECONDS -= 1`
(release-mode Rust wraps on underflow). -/
def u32_sub_one (n : Nat) : Nat := ((U32_MOD - 1) + n) % U32_MOD

/-- Wrapping `u32` increment by 1, the semantics of `NUM_BLINKS += 1`. -/
def u32_add_one (n : Nat) : Nat := (n + 1) % U32_MOD

-- Constants from the source.

/-- `const MAX_BLINKS: u32 = 10;` -/
def MAX_BLINKS : Nat := 10

/-- `const COUNTDOWN_TIMER_INTERVAL: u32 = 1_000_000u32;` (1 second at the
1 MHz timer tick). -/
def COUNTDOWN_TIMER_INTERVAL : Nat := 1000000

/-- `const BLINK_TIMER_INTERVAL: u32 = 100 * 1_000u32;` (100 ms). -/
def BLINK_TIMER_INTERVAL : Nat := 100 * 1000

/-- `const BEEP_DURATION_MS: u32 = 100;` -/
def BEEP_DURATION_MS : Nat := 100

/-- `const BEEP_HZ: u32 = 440;` -/
def BEEP_HZ : Nat := 440

/-- `const PWM_MAX_DUTY: u16 = (16_000_000 / BEEP_HZ) as u16;` (the value
36363 fits in a `u16`, so the cast truncates nothing; we keep the
truncation explicit). -/
def PWM_MAX_DUTY : Nat := (16000000 / BEEP_HZ) % 2 ^ 16

/-- `const PWM_DUTY_BEEP_ON: u16 = PWM_MAX_DUTY / 2;` (50% duty cycle). -/
def PWM_DUTY_BEEP_ON : Nat := PWM_MAX_DUTY / 2

/-- `const PWM_DUTY_BEEP_OFF: u16 = 0;` -/
def PWM_DUTY_BEEP_OFF : Nat := 0

/-- A 5×5 LED bit pattern, `[[u8; 5]; 5]` in the source. -/
abbrev Pattern := List (List Nat)

/-- `fn get_digit_pattern(value: u32) -> [[u8; 5]; 5]`, transcribed row by
row; values other than 0–10 fall to the all-zero (blank) pattern. -/
def get_digit_pattern (value : Nat) : Pattern :=
  match value with
  | 0 =>
    [[0, 1, 1, 1, 0],
     [0, 1, 0, 1, 0],
     [0, 1, 0, 1, 0],
     [0, 1, 0, 1, 0],
     [0, 1, 1, 1, 0]]
  | 1 =>
    [[0, 0, 1, 0, 0],
     [0, 1, 1, 0, 0],
     [0, 0, 1, 0, 0],
     [0, 0, 1, 0, 0],
     [0, 1, 1, 1, 0]]
  | 2 =>
    [[0, 1, 1, 1, 0],
     [0, 0, 0, 1, 0],
     [0, 1, 1, 1, 0],
     [0, 1, 0, 0, 0],
     [0, 1, 1, 1, 0]]
  | 3 =>
    [[0, 1, 1, 1, 0],
     [0, 0, 0, 1, 0],
     [0, 1, 1, 1, 0],
     [0, 0, 0, 1, 0],
     [0, 1, 1, 1, 0]]
  | 4 =>
    [[0, 1, 0, 1, 0],
     [0, 1, 0, 1, 0],
     [0, 1, 1, 1, 0],
     [0, 0, 0, 1, 0],
     [0, 0, 0, 1, 0]]
  | 5 =>
    [[0, 1, 1, 1, 0],
     [0, 1, 0, 0, 0],
     [0, 1, 1, 1, 0],
     [0, 0, 0, 1, 0],
     [0, 1, 1, 1, 0]]
  | 6 =>
    [[0, 1, 1, 1, 0],
     [0, 1, 0, 0, 0],
     [0, 1, 1, 1, 0],
     [0, 1, 0, 1, 0],
     [0, 1, 1, 1, 0]]
  | 7 =>
    [[0, 1, 1, 1, 0],
     [0, 0, 0, 1, 0],
     [0, 0, 1, 0, 0],
     [0, 0, 1, 0, 0],
     [0, 0, 1, 0, 0]]
  | 8 =>
    [[0, 1, 1, 1, 0],
     [0, 1, 0, 1, 0],
     [0, 1, 1, 1, 0],
     [0, 1, 0, 1, 0],
     [0, 1, 1, 1, 0]]
  | 9 =>
    [[0, 1, 1, 1, 0],
     [0, 1, 0, 1, 0],
     [0, 1, 1, 1, 0],
     [0, 0, 0, 1, 0],
     [0, 1, 1, 1, 0]]
  | 10 =>
    [[1, 0, 1, 1, 1],
     [1, 0, 1, 0, 1],
     [1, 0, 1, 0, 1],
     [1, 0, 1, 0, 1],
     [1, 0, 1, 1, 1]]
  | _ =>
    [[0, 0, 0, 0, 0],
     [0, 0, 0, 0, 0],
     [0, 0, 0, 0, 0],
     [0, 0, 0, 0, 0],
     [0, 0, 0, 0, 0]]

/-- The all-zero pattern: what the display shows when every LED is off. -/
def blank_pattern : Pattern :=
  [[0, 0, 0, 0, 0],
   [0, 0, 0, 0, 0],
   [0, 0, 0, 0, 0],
   [0, 0, 0, 0, 0],
   [0, 0, 0, 0, 0]]

/-- The shared state mutated by the interrupt handlers.

`remaining_seconds`, `timer_running`, `num_blinks` are the global statics.
Each hardware timer is modelled by an `armed` flag — true exactly when the
timer has been started and its interrupt is enabled, i.e. when its
interrupt can fire — together with the interval (in 1 MHz ticks) most
recently passed to `start`.  `beep_duty` is the PWM duty currently set on
channel C0, and `display` the frame most recently passed to
`Display.show` via `update_display`. -/
structure MBState where
  remaining_seconds : Nat
  timer_running : Bool
  num_blinks : Nat
  countdown_armed : Bool
  countdown_interval : Nat
  beep_armed : Bool
  beep_interval : Nat
  blink_armed : Bool
  blink_interval : Nat
  beep_duty : Nat
  display : Pattern
  deriving DecidableEq, Repr

/-- `fn update_display(seconds: u32)`: builds the digit pattern and shows
it on the display. -/
def update_display (s : MBState) (seconds : Nat) : MBState :=
  { s with display := get_digit_pattern seconds }

/-- The Button A branch of the `GPIOTE` handler (channel 0 event):
toggle `TIMER_RUNNING`; if now running and `REMAINING_SECONDS > 0`,
restart the countdown timer and enable its interrupt, else disable it. -/
def buttonA_step (s : MBState) : MBState :=
  let running := !s.timer_running
  if running = true ∧ 0 < s.remaining_seconds then
    { s with timer_running := running, countdown_armed := true,
             countdown_interval := COUNTDOWN_TIMER_INTERVAL }
  else
    { s with timer_running := running, countdown_armed := false }

/-- The Button B branch of the `GPIOTE` handler (channel 1 event):
reset `REMAINING_SECONDS` to 10, stop the countdown, disable the countdown
interrupt, and redraw the display with the new value. -/
def buttonB_step (s : MBState) : MBState :=
  update_display
    { s with remaining_seconds := 10, timer_running := false,
             countdown_armed := false }
    10

/-- The `TIMER0` (countdown tick) handler: decrement `REMAINING_SECONDS`
(unguarded `u32` decrement), redraw; at zero stop the countdown, turn the
beep on at 50% duty and start the beep-duration and blink timers;
otherwise restart the countdown timer for another interval. -/
def timer0_step (s : MBState) : MBState :=
  let remaining := u32_sub_one s.remaining_seconds
  let s1 := update_display { s with remaining_seconds := remaining } remaining
  if remaining = 0 then
    { s1 with timer_running := false, countdown_armed := false,
              beep_duty := PWM_DUTY_BEEP_ON,
              beep_armed := true, beep_interval := BEEP_DURATION_MS * 1000,
              blink_armed := true, blink_interval := 100 * 1000 }
  else
    { s1 with countdown_interval := COUNTDOWN_TIMER_INTERVAL }

/-- The `TIMER2` (beep duration) handler: silence the PWM and disable the
beep timer interrupt. -/
def timer2_step (s : MBState) : MBState :=
  { s with beep_duty := PWM_DUTY_BEEP_OFF, beep_armed := false }

/-- The `TIMER3` (blink) handler: draw pattern 11 (blank) when
`NUM_BLINKS` is even and pattern 0 otherwise, increment `NUM_BLINKS`;
once it reaches `MAX_BLINKS * 2`, disable the blink interrupt and reset
the counter, else restart the blink timer. -/
def timer3_step (s : MBState) : MBState :=
  let s1 :=
    if s.num_blinks % 2 = 0 then update_display s 11
    else update_display s 0
  let n := u32_add_one s1.num_blinks
  if n = MAX_BLINKS * 2 then
    { s1 with num_blinks := 0, blink_armed := false }
  else
    { s1 with num_blinks := n, blink_interval := BLINK_TIMER_INTERVAL }

/-- The interrupt sources that mutate or read the shared state.  `timer1`
is the display row-scan refresh: it only forwards to the display driver
and touches none of the shared state modelled here. -/
inductive Event where
  | buttonA
  | buttonB
  | timer0
  | timer1
  | timer2
  | timer3
  deriving DecidableEq, Repr

/-- When an interrupt can fire: button edges can always arrive; a timer
interrupt fires only while that timer is armed (started with its
interrupt enabled). -/
def enabled (s : MBState) : Event → Bool
  | .buttonA => true
  | .buttonB => true
  | .timer0 => s.countdown_armed
  | .timer1 => true
  | .timer2 => s.beep_armed
  | .timer3 => s.blink_armed

/-- One handler invocation. -/
def step (s : MBState) : Event → MBState
  | .buttonA => buttonA_step s
  | .buttonB => buttonB_step s
  | .timer0 => timer0_step s
  | .timer1 => s
  | .timer2 => timer2_step s
  | .timer3 => timer3_step s

/-- The state set up by `main` before interrupts are unmasked:
`REMAINING_SECONDS = 10`, not running, `NUM_BLINKS = 0`, no timer started,
PWM silent, display showing the pattern for 10. -/
def initState : MBState :=
  { remaining_seconds := 10
    timer_running := false
    num_blinks := 0
    countdown_armed := false
    countdown_interval := 0
    beep_armed := false
    beep_interval := 0
    blink_armed := false
    blink_interval := 0
    beep_duty := PWM_DUTY_BEEP_OFF
    display := get_digit_pattern 10 }

/-- Run a sequence of handler invocations. -/
def run (s : MBState) : List Event → MBState
  | [] => s
  | e :: es => run (step s e) es

/-- A trace is valid when every event in it is enabled at the state where
it fires. -/
def validTrace (s : MBState) : List Event → Bool
  | [] => true
  | e :: es => enabled s e && validTrace (step s e) es

/-- States reachable from the post-initialization state by enabled
events. -/
inductive Reachable : MBState → Prop where
  | init : Reachable initState
  | next {s : MBState} {e : Event} :
      Reachable s → enabled s e = true → Reachable (step s e)

/-- Repeated firing of the blink handler. -/
def timer3_iter : Nat → MBState → MBState
  | 0, s => s
  | n + 1, s => timer3_step (timer3_iter n s)

end Countdown

namespace Countdown

/-- Arithmetic fact: the wrapping `u32` decrement acts as the exact
decrement on values in the range the firmware keeps
`REMAINING_SECONDS` in. -/
lemma u32_sub_one_eq {n : Nat} (h1 : 0 < n) (h2 : n ≤ 10) :
    u32_sub_one n = n - 1 := by
  have hp : (2 : Nat) ^ 32 = 4294967296 := by norm_num
  simp only [u32_sub_one, U32_MOD, hp]
  omega

/-- Arithmetic fact: the wrapping `u32` increment acts as the exact
increment on values in the range the firmware keeps `NUM_BLINKS` in. -/
lemma u32_add_one_eq {n : Nat} (h : n < 20) :
    u32_add_one n = n + 1 := by
  have hp : (2 : Nat) ^ 32 = 4294967296 := by norm_num
  simp only [u32_add_one, U32_MOD, hp]
  omega

/-- The inductive invariant of the state machine: `REMAINING_SECONDS`
stays in 0..10, `NUM_BLINKS` stays below `MAX_BLINKS * 2`, and the
countdown timer interrupt is armed only while the countdown is running
with a positive remaining count. -/
def Inv (s : MBState) : Prop :=
  s.remaining_seconds ≤ 10 ∧ s.num_blinks < MAX_BLINKS * 2 ∧
    (s.countdown_armed = true →
      0 < s.remaining_seconds ∧ s.timer_running = true)

lemma inv_init : Inv initState := by
  simp only [Inv, initState]
  decide

lemma inv_step {s : MBState} {e : Event} (hInv : Inv s)
    (he : enabled s e = true) : Inv (step s e) := by
  simp only [Inv] at hInv ⊢
  obtain ⟨h10, hnb, harm⟩ := hInv
  cases e with
  | buttonA =>
      simp only [step, buttonA_step]
      split
      · next hcond => exact ⟨h10, hnb, fun _ => ⟨hcond.2, hcond.1⟩⟩
      · exact ⟨h10, hnb, by simp⟩
  | buttonB =>
      simp only [step, buttonB_step, update_display]
      exact ⟨by norm_num, hnb, by simp⟩
  | timer0 =>
      have harmed : s.countdown_armed = true := he
      obtain ⟨hpos, hrun⟩ := harm harmed
      simp only [step, timer0_step, update_display, u32_sub_one_eq hpos h10]
      split
      · refine ⟨?_, hnb, by simp⟩
        show s.remaining_seconds - 1 ≤ 10
        omega
      · next hne =>
          refine ⟨?_, hnb, fun _ => ⟨?_, hrun⟩⟩
          · show s.remaining_seconds - 1 ≤ 10
            omega
          · show 0 < s.remaining_seconds - 1
            omega
  | timer1 =>
      exact ⟨h10, hnb, harm⟩
  | timer2 =>
      exact ⟨h10, hnb, harm⟩
  | timer3 =>
      simp only [step, timer3_step, update_display]
      have hnb20 : s.num_blinks < 20 := hnb
      split
      · split
        · exact ⟨h10, by norm_num [MAX_BLINKS], harm⟩
        · next hne =>
            simp only [u32_add_one_eq hnb20] at hne ⊢
            refine ⟨h10, ?_, harm⟩
            simp only [MAX_BLINKS] at hne ⊢
            omega
      · split
        · exact ⟨h10, by norm_num [MAX_BLINKS], harm⟩
        · next hne =>
            simp only [u32_add_one_eq hnb20] at hne ⊢
            refine ⟨h10, ?_, harm⟩
            simp only [MAX_BLINKS] at hne ⊢
            omega

lemma reachable_inv {s : MBState} (h : Reachable s) : Inv s := by
  induction h with
  | init => exact inv_init
  | next hr he ih => exact inv_step ih he

/-- A concretely validated trace out of a reachable state reaches only
reachable states. -/
lemma validTrace_reachable {s : MBState} (tr : List Event)
    (hs : Reachable s) (hv : validTrace s tr = true) :
    Reachable (run s tr) := by
  induction tr generalizing s with
  | nil => exact hs
  | cons e es ih =>
      simp only [validTrace, Bool.and_eq_true] at hv
      exact ih (Reachable.next hs hv.1) hv.2

end Countdown

namespace Countdown

/-- Field-level description of one firing of the blink handler while the
blink counter is still below its bound. -/
lemma timer3_step_fields (t : MBState) (hlt : t.num_blinks < 20) :
    (timer3_step t).num_blinks
        = (if t.num_blinks + 1 = 20 then 0 else t.num_blinks + 1) ∧
    (timer3_step t).blink_armed
        = (if t.num_blinks + 1 = 20 then false else t.blink_armed) ∧
    (timer3_step t).display
        = (if t.num_blinks % 2 = 0 then get_digit_pattern 11
           else get_digit_pattern 0) ∧
    (timer3_step t).remaining_seconds = t.remaining_seconds ∧
    (timer3_step t).timer_running = t.timer_running ∧
    (timer3_step t).countdown_armed = t.countdown_armed ∧
    (timer3_step t).beep_armed = t.beep_armed ∧
    (timer3_step t).beep_duty = t.beep_duty := by
  simp only [timer3_step, update_display]
  split
  · next h2 =>
      simp only [u32_add_one_eq hlt, MAX_BLINKS]
      by_cases h20 : t.num_blinks + 1 = 20 <;> simp [h2, h20]
  · next h2 =>
      simp only [u32_add_one_eq hlt, MAX_BLINKS]
      by_cases h20 : t.num_blinks + 1 = 20 <;> simp [h2, h20]

/-- The whole blink sequence, fired from a state whose blink counter is 0:
after `i ≤ 20` firings the counter is `i` (0 again at the 20th), the blink
timer stays armed until exactly the 20th firing disarms it, the display
alternates blank (pattern 11) / digit 0 starting blank, and the rest of
the shared state is untouched. -/
lemma timer3_iter_spec (s : MBState) (h0 : s.num_blinks = 0) :
    ∀ i, i ≤ 20 →
      (timer3_iter i s).num_blinks = (if i = 20 then 0 else i) ∧
      (timer3_iter i s).blink_armed = (if i = 20 then false else s.blink_armed) ∧
      (1 ≤ i → (timer3_iter i s).display
          = (if (i - 1) % 2 = 0 then get_digit_pattern 11
             else get_digit_pattern 0)) ∧
      (timer3_iter i s).remaining_seconds = s.remaining_seconds ∧
      (timer3_iter i s).timer_running = s.timer_running ∧
      (timer3_iter i s).countdown_armed = s.countdown_armed ∧
      (timer3_iter i s).beep_armed = s.beep_armed ∧
      (timer3_iter i s).beep_duty = s.beep_duty := by
  intro i
  induction i with
  | zero =>
      intro _
      simp [timer3_iter, h0]
  | succ n ih =>
      intro hle
      have hn20 : n < 20 := by omega
      obtain ⟨ihb, iha, ihd, ihr, ihrun, ihc, ihba, ihdu⟩ := ih (by omega)
      rw [if_neg (by omega)] at ihb
      rw [if_neg (by omega)] at iha
      have hlt : (timer3_iter n s).num_blinks < 20 := by omega
      obtain ⟨fb, fa, fd, fr, frun, fc, fba, fdu⟩ :=
        timer3_step_fields (timer3_iter n s) hlt
      rw [ihb] at fb fa fd
      refine ⟨?_, ?_, ?_, ?_, ?_, ?_, ?_, ?_⟩
      · show (timer3_step (timer3_iter n s)).num_blinks = _
        rw [fb]
      · show (timer3_step (timer3_iter n s)).blink_armed = _
        rw [fa, iha]
      · intro _
        show (timer3_step (timer3_iter n s)).display = _
        rw [fd]
        simp
      · show (timer3_step (timer3_iter n s)).remaining_seconds = _
        rw [fr, ihr]
      · show (timer3_step (timer3_iter n s)).timer_running = _
        rw [frun, ihrun]
      · show (timer3_step (timer3_iter n s)).countdown_armed = _
        rw [fc, ihc]
      · show (timer3_step (timer3_iter n s)).beep_armed = _
        rw [fba, ihba]
      · show (timer3_step (timer3_iter n s)).beep_duty = _
        rw [fdu, ihdu]

end Countdown

namespace Countdown

/-- Button A never changes the remaining count. -/
lemma buttonA_step_remaining (s : MBState) :
    (buttonA_step s).remaining_seconds = s.remaining_seconds := by
  simp only [buttonA_step]
  split <;> rfl

/-- Button A always toggles the running flag. -/
lemma buttonA_step_running (s : MBState) :
    (buttonA_step s).timer_running = !s.timer_running := by
  simp only [buttonA_step]
  split <;> rfl

/-- Button A never redraws the display. -/
lemma buttonA_step_display (s : MBState) :
    (buttonA_step s).display = s.display := by
  simp only [buttonA_step]
  split <;> rfl

/-- Button A never touches the blink timer. -/
lemma buttonA_step_blink (s : MBState) :
    (buttonA_step s).blink_armed = s.blink_armed := by
  simp only [buttonA_step]
  split <;> rfl

/-- After Button A the countdown interrupt is armed exactly when the
toggled flag is running and seconds remain. -/
lemma buttonA_step_armed (s : MBState) :
    (buttonA_step s).countdown_armed
      = ((!s.timer_running) && decide (0 < s.remaining_seconds)) := by
  by_cases hr : (!s.timer_running) = true <;>
    by_cases hp : 0 < s.remaining_seconds <;>
      simp [buttonA_step, hr, hp]

/-- The countdown tick always performs the (wrapping) decrement. -/
lemma timer0_step_remaining (s : MBState) :
    (timer0_step s).remaining_seconds = u32_sub_one s.remaining_seconds := by
  simp only [timer0_step, update_display]
  split <;> rfl

/-- Field-level description of one countdown tick fired from a state the
invariant allows (`0 < REMAINING_SECONDS ≤ 10`, so the decrement is exact). -/
lemma timer0_step_fields (s : MBState) (hpos : 0 < s.remaining_seconds)
    (h10 : s.remaining_seconds ≤ 10) :
    (timer0_step s).remaining_seconds = s.remaining_seconds - 1 ∧
    (timer0_step s).display = get_digit_pattern (s.remaining_seconds - 1) ∧
    (s.remaining_seconds - 1 = 0 →
      (timer0_step s).timer_running = false ∧
      (timer0_step s).countdown_armed = false ∧
      (timer0_step s).beep_duty = PWM_DUTY_BEEP_ON ∧
      (timer0_step s).beep_armed = true ∧
      (timer0_step s).beep_interval = BEEP_DURATION_MS * 1000 ∧
      (timer0_step s).blink_armed = true ∧
      (timer0_step s).blink_interval = 100 * 1000) ∧
    (s.remaining_seconds - 1 ≠ 0 →
      (timer0_step s).timer_running = s.timer_running ∧
      (timer0_step s).countdown_armed = s.countdown_armed ∧
      (timer0_step s).countdown_interval = COUNTDOWN_TIMER_INTERVAL ∧
      (timer0_step s).beep_armed = s.beep_armed ∧
      (timer0_step s).blink_armed = s.blink_armed ∧
      (timer0_step s).beep_duty = s.beep_duty) := by
  simp only [timer0_step, update_display, u32_sub_one_eq hpos h10]
  by_cases hz : s.remaining_seconds - 1 = 0 <;> simp [hz]

/-- The countdown tick arms the blink timer only on the branch where the
decremented count is zero. -/
lemma timer0_step_blink (s : MBState) :
    (timer0_step s).blink_armed = true →
    s.blink_armed = false →
    (timer0_step s).remaining_seconds = 0 := by
  simp only [timer0_step, update_display]
  split
  · next hz => intro _ _; exact hz
  · intro h1 h2
    rw [h2] at h1
    exact absurd h1 (by simp)

/-- The blink handler touches only the blink counter, the blink timer and
the display. -/
lemma timer3_step_preserves (t : MBState) :
    (timer3_step t).remaining_seconds = t.remaining_seconds ∧
    (timer3_step t).timer_running = t.timer_running ∧
    (timer3_step t).countdown_armed = t.countdown_armed ∧
    (timer3_step t).beep_armed = t.beep_armed ∧
    (timer3_step t).beep_duty = t.beep_duty := by
  simp only [timer3_step, update_display]
  split <;> split <;> exact ⟨rfl, rfl, rfl, rfl, rfl⟩

-- Concrete executions used as witnesses.

/-- The state right after Button A is pressed once from power-up. -/
def armedState : MBState := step initState Event.buttonA

/-- Button A, then nine countdown ticks: one second left on the clock. -/
def preAlarmTrace : List Event :=
  Event.buttonA :: List.replicate 9 Event.timer0

def preAlarmState : MBState := run initState preAlarmTrace

/-- Button A, then the full ten countdown ticks: the alarm has just been
set off. -/
def alarmTrace : List Event :=
  Event.buttonA :: List.replicate 10 Event.timer0

def alarmState : MBState := run initState alarmTrace

/-- The full round trip: start, ten ticks, twenty blink firings, beep
timer expiry. -/
def roundTripTrace : List Event :=
  alarmTrace ++ List.replicate 20 Event.timer3 ++ [Event.timer2]

def roundTripState : MBState := run initState roundTripTrace

lemma reachable_armedState : Reachable armedState :=
  Reachable.next Reachable.init (by decide)

lemma reachable_preAlarmState : Reachable preAlarmState :=
  validTrace_reachable preAlarmTrace Reachable.init (by decide)

lemma reachable_alarmState : Reachable alarmState :=
  validTrace_reachable alarmTrace Reachable.init (by decide)

end Countdown

namespace Countdown

/-- The global `static mut Option<_>` handle slots of the firmware. -/
inductive HandleSlot where
  | display
  | beepPwm
  | countdownTimer
  | beepTimer
  | blinkTimer
  | gpiote
  deriving DecidableEq, Repr

/-- The five interrupt lines the firmware unmasks. -/
inductive Irq where
  | gpiote
  | timer0
  | timer1
  | timer2
  | timer3
  deriving DecidableEq, Repr

/-- The handle slots each interrupt handler unwraps (reading the handler
bodies): `GPIOTE` unwraps the GPIOTE peripheral, the countdown timer and
(on the Button B branch, via `update_display`) the display; `TIMER0`
unwraps the countdown timer, the display, the PWM and the beep and blink
timers; `TIMER1` the display; `TIMER2` the PWM and the beep timer;
`TIMER3` the blink timer and the display. -/
def handlerNeeds : Irq → List HandleSlot
  | .gpiote => [.gpiote, .countdownTimer, .display]
  | .timer0 => [.countdownTimer, .display, .beepPwm, .beepTimer, .blinkTimer]
  | .timer1 => [.display]
  | .timer2 => [.beepPwm, .beepTimer]
  | .timer3 => [.blinkTimer, .display]

/-- The actions of `main` that matter for handler safety: storing a handle
into its global slot, drawing the initial display value, unmasking an
interrupt, clearing a pending interrupt. -/
inductive MainAction where
  | store (h : HandleSlot)
  | draw (value : Nat)
  | unmask (i : Irq)
  | unpend (i : Irq)
  deriving DecidableEq, Repr

/-- The tail of `main`, transcribed in program order: the six stores in the
one-time-initialization block, the initial `update_display(10)`, then the
five `NVIC::unmask` calls and the final `NVIC::unpend`. -/
def mainActions : List MainAction :=
  [.store .display, .store .beepPwm, .store .countdownTimer,
   .store .beepTimer, .store .blinkTimer, .store .gpiote,
   .draw 10,
   .unmask .timer1, .unmask .timer0, .unmask .timer2, .unmask .timer3,
   .unmask .gpiote,
   .unpend .gpiote]

/-- Whether a prefix of the action list has stored the given slot. -/
def storedIn (acts : List MainAction) (h : HandleSlot) : Bool :=
  acts.any fun a => decide (a = .store h)

/-- Scanning the action list in order: at every `unmask`, every handle the
corresponding handler unwraps must already have been stored. -/
def initOrderOk : List MainAction → List MainAction → Bool
  | _, [] => true
  | pre, a :: rest =>
      (match a with
       | .unmask i => (handlerNeeds i).all fun h => storedIn pre h
       | _ => true) && initOrderOk (pre ++ [a]) rest

/-- All five interrupt lines. -/
def allIrqs : List Irq := [.gpiote, .timer0, .timer1, .timer2, .timer3]

/-- All six handle slots. -/
def allSlots : List HandleSlot :=
  [.display, .beepPwm, .countdownTimer, .beepTimer, .blinkTimer, .gpiote]

end Countdown

namespace Countdown

/-- C1: over every reachable state, `REMAINING_SECONDS` stays in 0..10 (so
the `u32` never wraps below 0); every countdown-tick (`TIMER0`) firing
happens with `TIMER_RUNNING` true and decreases the count by exactly 1
(the unguarded decrement never underflows, because the countdown interrupt
is only armed while the count is positive); the count is non-increasing
across any enabled event that keeps `TIMER_RUNNING` true; and the only
enabled event that can set the count (back) to the initial value 10 is the
Button B reset edge. -/
theorem C1_countdown_invariant (s : MBState) (hs : Reachable s) :
    s.remaining_seconds ≤ 10 ∧
    (enabled s Event.timer0 = true →
      s.timer_running = true ∧ 0 < s.remaining_seconds ∧
      (step s Event.timer0).remaining_seconds + 1 = s.remaining_seconds) ∧
    (∀ e, enabled s e = true → s.timer_running = true →
      (step s e).timer_running = true →
      (step s e).remaining_seconds ≤ s.remaining_seconds) ∧
    (∀ e, enabled s e = true → e ≠ Event.buttonB →
      (step s e).remaining_seconds = 10 → s.remaining_seconds = 10) := by
  obtain ⟨h10, hnb, harm⟩ := reachable_inv hs
  refine ⟨h10, ?_, ?_, ?_⟩
  · intro he
    have harmed : s.countdown_armed = true := he
    obtain ⟨hpos, hrun⟩ := harm harmed
    refine ⟨hrun, hpos, ?_⟩
    show (timer0_step s).remaining_seconds + 1 = s.remaining_seconds
    rw [timer0_step_remaining, u32_sub_one_eq hpos h10]
    omega
  · intro e he hr1 hr2
    cases e with
    | buttonA =>
        show (buttonA_step s).remaining_seconds ≤ s.remaining_seconds
        rw [buttonA_step_remaining]
    | buttonB =>
        exfalso
        have hfalse : (step s Event.buttonB).timer_running = false := rfl
        rw [hfalse] at hr2
        exact Bool.false_ne_true hr2
    | timer0 =>
        have harmed : s.countdown_armed = true := he
        obtain ⟨hpos, _⟩ := harm harmed
        show (timer0_step s).remaining_seconds ≤ s.remaining_seconds
        rw [timer0_step_remaining, u32_sub_one_eq hpos h10]
        omega
    | timer1 => exact le_refl _
    | timer2 => exact le_refl _
    | timer3 =>
        show (timer3_step s).remaining_seconds ≤ s.remaining_seconds
        rw [(timer3_step_preserves s).1]
  · intro e he hne h10'
    cases e with
    | buttonA =>
        rw [show (step s Event.buttonA).remaining_seconds
              = s.remaining_seconds from buttonA_step_remaining s] at h10'
        exact h10'
    | buttonB => exact absurd rfl hne
    | timer0 =>
        have harmed : s.countdown_armed = true := he
        obtain ⟨hpos, _⟩ := harm harmed
        rw [show (step s Event.timer0).remaining_seconds
              = u32_sub_one s.remaining_seconds from timer0_step_remaining s,
            u32_sub_one_eq hpos h10] at h10'
        omega
    | timer1 => exact h10'
    | timer2 => exact h10'
    | timer3 =>
        rw [show (step s Event.timer3).remaining_seconds
              = s.remaining_seconds from (timer3_step_preserves s).1] at h10'
        exact h10'

/-- Witness for C1: at the reachable state reached by one Button A press
the tick is enabled and fires the exact decrement 10 → 9. -/
theorem C1_witness :
    Reachable armedState ∧
    enabled armedState Event.timer0 = true ∧
    (step armedState Event.timer0).remaining_seconds + 1
      = armedState.remaining_seconds :=
  ⟨reachable_armedState, by decide,
    ((C1_countdown_invariant armedState reachable_armedState).2.1
      (by decide)).2.2⟩

end Countdown

namespace Countdown

/-- C3: whenever the countdown tick fires, the handler decrements the
remaining count and redraws the new value; if the result is 0 it stops
the countdown, disarms the tick interrupt, turns the tone on at 50% duty
(`PWM_MAX_DUTY / 2`), arms the tone-duration timer for
`BEEP_DURATION_MS * 1000 = 100 000` ticks (100 ms at the 1 MHz timer) and
the blink timer for `100 * 1000` ticks (100 ms); otherwise it re-arms the
tick timer for `COUNTDOWN_TIMER_INTERVAL = 1 000 000` ticks (1 s). -/
theorem C3_timer0_handler (s : MBState) (hs : Reachable s)
    (he : enabled s Event.timer0 = true) :
    (step s Event.timer0).remaining_seconds = s.remaining_seconds - 1 ∧
    (step s Event.timer0).display
      = get_digit_pattern (s.remaining_seconds - 1) ∧
    (s.remaining_seconds - 1 = 0 →
      (step s Event.timer0).timer_running = false ∧
      (step s Event.timer0).countdown_armed = false ∧
      (step s Event.timer0).beep_duty = PWM_DUTY_BEEP_ON ∧
      PWM_DUTY_BEEP_ON = PWM_MAX_DUTY / 2 ∧
      (step s Event.timer0).beep_armed = true ∧
      (step s Event.timer0).beep_interval = BEEP_DURATION_MS * 1000 ∧
      BEEP_DURATION_MS * 1000 = 100000 ∧
      (step s Event.timer0).blink_armed = true ∧
      (step s Event.timer0).blink_interval = 100 * 1000) ∧
    (s.remaining_seconds - 1 ≠ 0 →
      (step s Event.timer0).countdown_armed = true ∧
      (step s Event.timer0).countdown_interval = COUNTDOWN_TIMER_INTERVAL ∧
      COUNTDOWN_TIMER_INTERVAL = 1000000) := by
  obtain ⟨h10, hnb, harm⟩ := reachable_inv hs
  have harmed : s.countdown_armed = true := he
  obtain ⟨hpos, hrun⟩ := harm harmed
  obtain ⟨f1, f2, f3, f4⟩ := timer0_step_fields s hpos h10
  refine ⟨f1, f2, ?_, ?_⟩
  · intro hz
    obtain ⟨g1, g2, g3, g4, g5, g6, g7⟩ := f3 hz
    exact ⟨g1, g2, g3, rfl, g4, g5, by decide, g6, g7⟩
  · intro hnz
    obtain ⟨g1, g2, g3, g4, g5, g6⟩ := f4 hnz
    exact ⟨g2.trans harmed, g3, rfl⟩

/-- Witness for C3 at the reachable state with one second left: firing the
tick there takes the zero branch and arms beep and blink timers. -/
theorem C3_witness :
    Reachable preAlarmState ∧
    enabled preAlarmState Event.timer0 = true ∧
    preAlarmState.remaining_seconds - 1 = 0 ∧
    (step preAlarmState Event.timer0).beep_armed = true ∧
    (step preAlarmState Event.timer0).blink_armed = true :=
  ⟨reachable_preAlarmState, by decide, by decide,
    (((C3_timer0_handler preAlarmState reachable_preAlarmState
        (by decide)).2.2.1 (by decide)).2.2.2.2.1),
    (((C3_timer0_handler preAlarmState reachable_preAlarmState
        (by decide)).2.2.1 (by decide)).2.2.2.2.2.2.2.1)⟩

/-- C4: in every state, servicing a Button B press sets the remaining
count to 10 and the running flag to false, disarms the countdown tick
interrupt, and redraws the display inside the handler with the (non-blank)
"10" glyph. -/
theorem C4_buttonB_reset (s : MBState) :
    (step s Event.buttonB).remaining_seconds = 10 ∧
    (step s Event.buttonB).timer_running = false ∧
    (step s Event.buttonB).countdown_armed = false ∧
    (step s Event.buttonB).display = get_digit_pattern 10 ∧
    get_digit_pattern 10 ≠ blank_pattern :=
  ⟨rfl, rfl, rfl, rfl, by decide⟩

/-- C5: every Button A press toggles the running flag exactly once; when
the toggle enters the running state the tick timer is armed if and only if
seconds remain (and then for the 1-second interval); when it enters the
stopped state the tick interrupt is disarmed; and two consecutive presses
restore the flag. -/
theorem C5_buttonA_toggle (s : MBState) :
    (step s Event.buttonA).timer_running = !s.timer_running ∧
    ((step s Event.buttonA).timer_running = true →
      ((step s Event.buttonA).countdown_armed = true
          ↔ 0 < s.remaining_seconds) ∧
      (0 < s.remaining_seconds →
        (step s Event.buttonA).countdown_interval
          = COUNTDOWN_TIMER_INTERVAL)) ∧
    ((step s Event.buttonA).timer_running = false →
      (step s Event.buttonA).countdown_armed = false) ∧
    (step (step s Event.buttonA) Event.buttonA).timer_running
      = s.timer_running := by
  refine ⟨buttonA_step_running s, ?_, ?_, ?_⟩
  · intro h
    have h2 : (!s.timer_running) = true := (buttonA_step_running s).symm.trans h
    constructor
    · rw [show (step s Event.buttonA).countdown_armed
            = ((!s.timer_running) && decide (0 < s.remaining_seconds)) from
          buttonA_step_armed s, h2]
      simp
    · intro hp
      show (buttonA_step s).countdown_interval = COUNTDOWN_TIMER_INTERVAL
      simp only [buttonA_step]
      rw [if_pos ⟨h2, hp⟩]
  · intro h
    have h2 : (!s.timer_running) = false := (buttonA_step_running s).symm.trans h
    rw [show (step s Event.buttonA).countdown_armed
          = ((!s.timer_running) && decide (0 < s.remaining_seconds)) from
        buttonA_step_armed s, h2]
    simp
  · show (buttonA_step (buttonA_step s)).timer_running = s.timer_running
    rw [buttonA_step_running, buttonA_step_running, Bool.not_not]

/-- C8: the beep-duration handler silences the tone and disarms itself,
and its state update is idempotent: running it twice equals running it
once. -/
theorem C8_timer2_silence_idempotent (s : MBState) :
    (step s Event.timer2).beep_duty = PWM_DUTY_BEEP_OFF ∧
    (step s Event.timer2).beep_armed = false ∧
    step (step s Event.timer2) Event.timer2 = step s Event.timer2 :=
  ⟨rfl, rfl, rfl⟩

end Countdown

namespace Countdown

/-- Value 11, which the blink handler passes on even counts, falls to the
catch-all arm of `get_digit_pattern`: the blank pattern. -/
lemma get_digit_pattern_11 : get_digit_pattern 11 = blank_pattern := by
  decide

/-- C2 counterexample: in the concrete reachable alarm state the blink
counter is even (0), yet the first blink firing redraws the blank pattern
(value 11 has no glyph), not a non-blank sentinel glyph; and the 20-toggle
sequence ends with the display showing the non-blank digit-0 glyph, not
the blank one. -/
theorem C2_counterexample :
    validTrace initState alarmTrace = true ∧
    alarmState.num_blinks % 2 = 0 ∧
    (step alarmState Event.timer3).display = blank_pattern ∧
    (timer3_iter 20 alarmState).display = get_digit_pattern 0 ∧
    get_digit_pattern 0 ≠ blank_pattern := by
  decide

/-- C2 (amended): each blink-timer firing increments the blink counter
(resetting to 0 when it reaches `2 × MAX_BLINKS`) and redraws the display
showing the blank pattern when the pre-increment count is even and the
digit-0 glyph when it is odd, so the sequence of `2 × MAX_BLINKS = 20`
toggles ends with the display showing the non-blank digit-0 glyph and the
blink timer disarmed. -/
theorem C2_blink_phase_amended (s : MBState) (hs : Reachable s)
    (hb : enabled s Event.timer3 = true) :
    (step s Event.timer3).display
      = (if s.num_blinks % 2 = 0 then blank_pattern
         else get_digit_pattern 0) ∧
    (step s Event.timer3).num_blinks
      = (if s.num_blinks + 1 = MAX_BLINKS * 2 then 0
         else s.num_blinks + 1) ∧
    (s.num_blinks = 0 →
      (timer3_iter 20 s).display = get_digit_pattern 0 ∧
      (timer3_iter 20 s).blink_armed = false ∧
      get_digit_pattern 0 ≠ blank_pattern) := by
  obtain ⟨h10, hnb, harm⟩ := reachable_inv hs
  have h20 : MAX_BLINKS * 2 = 20 := by norm_num [MAX_BLINKS]
  have hnb20 : s.num_blinks < 20 := by rw [h20] at hnb; exact hnb
  obtain ⟨fb, fa, fd, _, _, _, _, _⟩ := timer3_step_fields s hnb20
  refine ⟨?_, ?_, ?_⟩
  · show (timer3_step s).display = _
    rw [fd, get_digit_pattern_11]
  · show (timer3_step s).num_blinks = _
    rw [fb, h20]
  · intro h0
    obtain ⟨ib, ia, idisp, _, _, _, _, _⟩ :=
      timer3_iter_spec s h0 20 (le_refl 20)
    refine ⟨?_, ?_, by decide⟩
    · rw [idisp (by norm_num), if_neg (by norm_num)]
    · rw [ia, if_pos rfl]

/-- Witness for C2 (amended) at the concrete reachable alarm state. -/
theorem C2_witness :
    Reachable alarmState ∧
    enabled alarmState Event.timer3 = true ∧
    alarmState.num_blinks = 0 ∧
    (timer3_iter 20 alarmState).display = get_digit_pattern 0 :=
  ⟨reachable_alarmState, by decide, by decide,
    ((C2_blink_phase_amended alarmState reachable_alarmState
        (by decide)).2.2 (by decide)).1⟩

/-- C6: from any reachable alarm entry (blink timer armed, counter 0) the
blink handler can fire twenty consecutive times (`2 × MAX_BLINKS = 20`);
the twentieth firing disarms the blink timer and resets the counter to 0,
after which the blink interrupt is no longer enabled; and the only enabled
event that re-arms a disarmed blink timer is a countdown tick that brings
the remaining count to 0 (a new countdown completion). -/
theorem C6_blink_termination (s : MBState) (hs : Reachable s)
    (ha : s.blink_armed = true) (h0 : s.num_blinks = 0) :
    (∀ i, i < 20 → enabled (timer3_iter i s) Event.timer3 = true) ∧
    (timer3_iter 20 s).blink_armed = false ∧
    (timer3_iter 20 s).num_blinks = 0 ∧
    enabled (timer3_iter 20 s) Event.timer3 = false ∧
    MAX_BLINKS * 2 = 20 ∧
    (∀ t e, enabled t e = true → t.blink_armed = false →
      (step t e).blink_armed = true →
      e = Event.timer0 ∧ (step t e).remaining_seconds = 0) := by
  refine ⟨?_, ?_, ?_, ?_, by norm_num [MAX_BLINKS], ?_⟩
  · intro i hi
    obtain ⟨_, ia, _, _, _, _, _, _⟩ := timer3_iter_spec s h0 i (by omega)
    show (timer3_iter i s).blink_armed = true
    rw [ia, if_neg (by omega), ha]
  · obtain ⟨_, ia, _, _, _, _, _, _⟩ := timer3_iter_spec s h0 20 (le_refl 20)
    rw [ia, if_pos rfl]
  · obtain ⟨ib, _, _, _, _, _, _, _⟩ := timer3_iter_spec s h0 20 (le_refl 20)
    rw [ib, if_pos rfl]
  · obtain ⟨_, ia, _, _, _, _, _, _⟩ := timer3_iter_spec s h0 20 (le_refl 20)
    show (timer3_iter 20 s).blink_armed = false
    rw [ia, if_pos rfl]
  · intro t e he hfa hta
    cases e with
    | buttonA =>
        exfalso
        have hta2 : (buttonA_step t).blink_armed = true := hta
        rw [buttonA_step_blink, hfa] at hta2
        exact Bool.false_ne_true hta2
    | buttonB =>
        exfalso
        have hta2 : t.blink_armed = true := hta
        rw [hfa] at hta2
        exact Bool.false_ne_true hta2
    | timer0 => exact ⟨rfl, timer0_step_blink t hta hfa⟩
    | timer1 =>
        exfalso
        have hta2 : t.blink_armed = true := hta
        rw [hfa] at hta2
        exact Bool.false_ne_true hta2
    | timer2 =>
        exfalso
        have hta2 : t.blink_armed = true := hta
        rw [hfa] at hta2
        exact Bool.false_ne_true hta2
    | timer3 =>
        exfalso
        have he2 : t.blink_armed = true := he
        rw [hfa] at he2
        exact Bool.false_ne_true he2

/-- Witness for C6 at the concrete reachable alarm state. -/
theorem C6_witness :
    Reachable alarmState ∧
    alarmState.blink_armed = true ∧
    alarmState.num_blinks = 0 ∧
    (timer3_iter 20 alarmState).blink_armed = false :=
  ⟨reachable_alarmState, by decide, by decide,
    (C6_blink_termination alarmState reachable_alarmState (by decide)
      (by decide)).2.1⟩

/-- C7: scanning the transcribed tail of `main` in program order, every
handle a handler unwraps is stored before the corresponding interrupt is
unmasked (in fact all six stores precede every unmask), and after the
whole sequence every slot any handler needs is stored.  Handlers never
write `None` back into a slot, so every unwrap in every handler is taken
on a `Some` value and the panic branch is unreachable. -/
theorem C7_init_before_unmask :
    initOrderOk [] mainActions = true ∧
    (allSlots.all fun h => storedIn mainActions h) = true ∧
    (allIrqs.all fun i =>
      (handlerNeeds i).all fun h => storedIn mainActions h) = true := by
  decide

/-- C9 counterexample: the round trip (start, ten ticks, twenty blink
firings, beep expiry) is a valid trace and leaves no timer armed, but it
leaves `REMAINING_SECONDS = 0`, so a Button A press afterwards — unlike a
Button A press in the initial state — arms no countdown: the system is
not able to accept a fresh start via Button A "just as from the initial
state". -/
theorem C9_counterexample :
    validTrace initState roundTripTrace = true ∧
    roundTripState.countdown_armed = false ∧
    roundTripState.beep_armed = false ∧
    roundTripState.blink_armed = false ∧
    roundTripState.remaining_seconds = 0 ∧
    (step initState Event.buttonA).countdown_armed = true ∧
    (step roundTripState Event.buttonA).timer_running = true ∧
    (step roundTripState Event.buttonA).countdown_armed = false := by
  decide

/-- C9 (amended): the round trip leaves no armed timers and the tone
silent; a Button B reset is accepted exactly as in any state (count back
to 10, stopped, "10" redrawn, no countdown armed), and after such a reset
Button A starts a countdown again; but Button A alone after the round
trip only toggles the running flag without arming the tick timer, because
the remaining count is 0. -/
theorem C9_round_trip_amended :
    validTrace initState roundTripTrace = true ∧
    roundTripState.countdown_armed = false ∧
    roundTripState.beep_armed = false ∧
    roundTripState.blink_armed = false ∧
    roundTripState.beep_duty = PWM_DUTY_BEEP_OFF ∧
    roundTripState.timer_running = false ∧
    roundTripState.remaining_seconds = 0 ∧
    (step roundTripState Event.buttonB).remaining_seconds = 10 ∧
    (step roundTripState Event.buttonB).timer_running = false ∧
    (step roundTripState Event.buttonB).display = get_digit_pattern 10 ∧
    (step roundTripState Event.buttonB).countdown_armed = false ∧
    (step roundTripState Event.buttonA).timer_running = true ∧
    (step roundTripState Event.buttonA).countdown_armed = false ∧
    (step (step roundTripState Event.buttonB) Event.buttonA).countdown_armed
      = true := by
  decide

end Countdown

namespace Countdown

/-- Once `REMAINING_SECONDS` is 0, any valid continuation that contains no
Button B press leaves it at 0: Button A and the other handlers never
change it, and the countdown tick cannot fire because the invariant keeps
its interrupt disarmed while the count is 0. -/
lemma remaining_zero_persists (tr : List Event) :
    ∀ s, Reachable s → s.remaining_seconds = 0 →
      validTrace s tr = true →
      (∀ e, e ∈ tr → e ≠ Event.buttonB) →
      (run s tr).remaining_seconds = 0 := by
  induction tr with
  | nil =>
      intro s _ h0 _ _
      exact h0
  | cons e es ih =>
      intro s hs h0 hv hnb
      simp only [validTrace, Bool.and_eq_true] at hv
      obtain ⟨hen, hvs⟩ := hv
      have hnb2 : ∀ e2, e2 ∈ es → e2 ≠ Event.buttonB :=
        fun e2 me => hnb e2 (List.mem_cons_of_mem e me)
      have h02 : (step s e).remaining_seconds = 0 := by
        cases e with
        | buttonA =>
            rw [show (step s Event.buttonA).remaining_seconds
                  = s.remaining_seconds from buttonA_step_remaining s]
            exact h0
        | buttonB => exact absurd rfl (hnb Event.buttonB (List.mem_cons_self _ _))
        | timer0 =>
            exfalso
            have harmed : s.countdown_armed = true := hen
            obtain ⟨_, _, harm⟩ := reachable_inv hs
            obtain ⟨hpos, _⟩ := harm harmed
            omega
        | timer1 => exact h0
        | timer2 => exact h0
        | timer3 =>
            rw [show (step s Event.timer3).remaining_seconds
                  = s.remaining_seconds from (timer3_step_preserves s).1]
            exact h0
      exact ih (step s e) (Reachable.next hs hen) h02 hvs hnb2

/-- C10: in any reachable state with `REMAINING_SECONDS = 0`, a Button A
press toggles the running flag but leaves the countdown interrupt
disarmed, so no tick can fire; the count and the display are untouched; a
second press returns the flag to its prior value; and along any valid
continuation without a Button B reset the count stays 0 — Button A alone
cannot restart a countdown from zero. -/
theorem C10_buttonA_at_zero (s : MBState) (hs : Reachable s)
    (h0 : s.remaining_seconds = 0) :
    (step s Event.buttonA).timer_running = !s.timer_running ∧
    (step s Event.buttonA).countdown_armed = false ∧
    enabled (step s Event.buttonA) Event.timer0 = false ∧
    (step s Event.buttonA).remaining_seconds = s.remaining_seconds ∧
    (step s Event.buttonA).display = s.display ∧
    (step (step s Event.buttonA) Event.buttonA).timer_running
      = s.timer_running ∧
    (∀ tr, validTrace s tr = true →
      (∀ e, e ∈ tr → e ≠ Event.buttonB) →
      (run s tr).remaining_seconds = 0) := by
  have hoff : (step s Event.buttonA).countdown_armed = false := by
    rw [show (step s Event.buttonA).countdown_armed
          = ((!s.timer_running) && decide (0 < s.remaining_seconds)) from
        buttonA_step_armed s, h0]
    simp
  refine ⟨buttonA_step_running s, hoff, hoff, buttonA_step_remaining s,
    buttonA_step_display s, ?_, ?_⟩
  · show (buttonA_step (buttonA_step s)).timer_running = s.timer_running
    rw [buttonA_step_running, buttonA_step_running, Bool.not_not]
  · intro tr hv hnb
    exact remaining_zero_persists tr s hs h0 hv hnb

/-- Witness for C10 at the concrete reachable alarm state, where the count
has just reached 0. -/
theorem C10_witness :
    Reachable alarmState ∧
    alarmState.remaining_seconds = 0 ∧
    (step alarmState Event.buttonA).countdown_armed = false :=
  ⟨reachable_alarmState, by decide,
    (C10_buttonA_at_zero alarmState reachable_alarmState (by decide)).2.1⟩

end Countdown
